import Mathlib

/-!
Verification development for the PalletiererTest repository: a fixed-period
cooperative control loop (src/main.cpp) built on a hand-rolled coroutine
arena (src/coro_support.hpp), simulated motors and pistons
(src/motors.hpp), a shared activation and error gate (src/settings.hpp,
duplicated in src/main.cpp), and a tick timer (src/timer.hpp).

Every definition below is a shallow embedding of the corresponding C++
entity.  Machine integers are modelled as follows: int64_t values (motor
positions, nr_boxes) as Int, and the size_t error counter as Nat reduced
modulo 2 to the 64 whenever the C++ arithmetic wraps.  Assertion failures
and divergence are modelled by Option: a step that trips an assert (or
spins forever without reaching a suspension point) returns none.
-/

set_option linter.unusedVariables false

/-! ### Settings (src/settings.hpp lines 5 to 44, identical copy in src/main.cpp lines 23 to 61) -/

/-- The error kinds of enum class Error in src/main.cpp (COUNT excluded). -/
inductive Error | InvalidGripperPos | EmergencyStop | BoxCatchedOnConveyor
deriving DecidableEq, Repr

/-- The std::array of COUNT bools indexed by Error::to_id. -/
structure ErrFlags where
  invalidGripperPos : Bool
  emergencyStop : Bool
  boxCatchedOnConveyor : Bool
deriving DecidableEq, Repr

/-- Read curr_errors at the index to_id yields for the given kind. -/
def ErrFlags.get (f : ErrFlags) : Error → Bool
  | .InvalidGripperPos => f.invalidGripperPos
  | .EmergencyStop => f.emergencyStop
  | .BoxCatchedOnConveyor => f.boxCatchedOnConveyor

/-- Write curr_errors at the index to_id yields for the given kind. -/
def ErrFlags.set (f : ErrFlags) : Error → Bool → ErrFlags
  | .InvalidGripperPos, b => { f with invalidGripperPos := b }
  | .EmergencyStop, b => { f with emergencyStop := b }
  | .BoxCatchedOnConveyor, b => { f with boxCatchedOnConveyor := b }

/-- One past the largest value a size_t holds; C++ unsigned arithmetic wraps modulo this. -/
def sizeTMod : Nat := 2 ^ 64

/-- The Settings class state: active flag, nr_errors counter (size_t) and curr_errors array. -/
structure SettingsState where
  active : Bool
  nr_errors : Nat
  curr_errors : ErrFlags
deriving DecidableEq, Repr

/-- Settings::is_active. -/
def SettingsState.is_active (s : SettingsState) : Bool := s.active

/-- Settings::has_error; the size_t nr_errors converts to bool as nonzero. -/
def SettingsState.has_error (s : SettingsState) : Bool := s.nr_errors != 0

/-- Settings::curr_error_count. -/
def SettingsState.curr_error_count (s : SettingsState) : Nat := s.nr_errors

/-- Settings::error_is_set. -/
def SettingsState.error_is_set (s : SettingsState) (err : Error) : Bool := s.curr_errors.get err

/-- Settings::set_error: deactivate, bump nr_errors by 1 minus the previous flag (size_t
arithmetic), then mark the flag. -/
def SettingsState.set_error (s : SettingsState) (err : Error) : SettingsState :=
  { active := false
    nr_errors := (s.nr_errors + (1 - (if s.curr_errors.get err then 1 else 0))) % sizeTMod
    curr_errors := s.curr_errors.set err true }

/-- Settings::reset_error: subtract the current flag from nr_errors in size_t arithmetic
(wrapping below zero).  Note the source never clears curr_errors here. -/
def SettingsState.reset_error (s : SettingsState) (err : Error) : SettingsState :=
  { s with
    nr_errors := (s.nr_errors + (sizeTMod - (if s.curr_errors.get err then 1 else 0))) % sizeTMod }

/-- Settings::set_active: activate only when no error is outstanding. -/
def SettingsState.set_active (s : SettingsState) : SettingsState :=
  if !s.has_error then { s with active := true } else s

/-- Settings::reset_active. -/
def SettingsState.reset_active (s : SettingsState) : SettingsState := { s with active := false }

/-- The default-constructed Settings value (constinit Settings settings = {}). -/
def initSettings : SettingsState := { active := false, nr_errors := 0, curr_errors := ⟨false, false, false⟩ }

/-! ### CoroutineStack arena (src/coro_support.hpp lines 21 to 53)

The arena is an array of coroutines_stack_size (512 for each task family in
src/main.cpp) values of size_t, with a cursor start_unused.  Addresses are
modelled as indices into that array; elem_size is sizeof(size_t) = 8 bytes.
Failed asserts return none. -/

/-- The O::coroutines_stack_size used by Inlet, Mag and Arm in src/main.cpp. -/
def coroArenaSize : Nat := 512

/-- CoroutineStack::allocate: round the byte count n up to whole size_t elements, check
capacity, return the old cursor as the block address together with the new cursor. -/
def CoroutineStack.allocate (start_unused n : Nat) : Option (Nat × Nat) :=
  let nr_needed := (n + 8 - 1) / 8
  let new_start_unused := start_unused + nr_needed
  if new_start_unused ≤ coroArenaSize then some (start_unused, new_start_unused)
  else none

/-- CoroutineStack::deallocate: assert the address is strictly below the cursor and inside
the arena, then reset the cursor to the address.  The new cursor is returned. -/
def CoroutineStack.deallocate (start_unused addr : Nat) : Option Nat :=
  if addr < start_unused then
    if addr < coroArenaSize then some addr
    else none
  else none

/-! ### Tick timer (src/timer.hpp lines 6 to 33)

Time points and durations are nanosecond counts modelled as Int.  The
member wait_till_end_of_tick depends on the clock reading now; the model
takes start, period and now and returns the new value of start (the next
baseline, which is also the boundary the call sleeps until in the
non-overrun case) together with the returned remaining budget. -/

/-- Tick::wait_till_end_of_tick as a function of the stored baseline, the period and the
current clock value: returns (new baseline, returned wait time). -/
def Tick.wait_till_end_of_tick (start period now : Int) : Int × Int :=
  let curr_duration := now - start
  if curr_duration < period then (start + period, period - curr_duration)
  else (now, period - curr_duration)

/-! ### Simulated motor and piston (src/motors.hpp lines 39 to 97) -/

/-- The sign helper of src/motors.hpp. -/
def sign (x : Int) : Int := if x < 0 then -1 else if x > 0 then 1 else 0

/-- SimulatedMotor state; speed is 17 in every instance the program creates. -/
structure Motor where
  target_pos : Int
  curr_pos : Int
  speed : Int
deriving DecidableEq, Repr

/-- SimulatedMotor::is_moving. -/
def Motor.is_moving (m : Motor) : Bool := m.curr_pos != m.target_pos

/-- SimulatedMotor::go_to_pos. -/
def Motor.go_to_pos (m : Motor) (pos : Int) : Motor := { m with target_pos := pos }

/-- SimulatedMotor::simulate_tick: move curr_pos toward target_pos by at most speed. -/
def Motor.simulate_tick (m : Motor) : Motor :=
  let diff := m.target_pos - m.curr_pos
  let step := min (diff.natAbs : Int) m.speed
  { m with curr_pos := m.curr_pos + sign diff * step }

/-- SimulatedMotor::stop. -/
def Motor.stop (m : Motor) : Motor := { m with target_pos := m.curr_pos }

/-- SimulatedPiston state. -/
structure Piston where
  curr_extended : Bool
  ticks_until_change : Int
deriving DecidableEq, Repr

/-- SimulatedPiston::is_moving. -/
def Piston.is_moving (p : Piston) : Bool := p.ticks_until_change != 0

/-- SimulatedPiston::is_extended. -/
def Piston.is_extended (p : Piston) : Bool := !p.is_moving && p.curr_extended

/-- SimulatedPiston::is_retracted. -/
def Piston.is_retracted (p : Piston) : Bool := !p.is_moving && !p.curr_extended

/-- SimulatedPiston::extend. -/
def Piston.extend (p : Piston) : Piston :=
  if !p.curr_extended then { p with ticks_until_change := 3 } else p

/-- SimulatedPiston::retract. -/
def Piston.retract (p : Piston) : Piston :=
  if p.curr_extended then { p with ticks_until_change := 3 } else p

/-- SimulatedPiston::simulate_tick. -/
def Piston.simulate_tick (p : Piston) : Piston :=
  if p.ticks_until_change > 0 then
    let t := p.ticks_until_change - 1
    if t = 0 then { curr_extended := !p.curr_extended, ticks_until_change := t }
    else { p with ticks_until_change := t }
  else p

/-! ### Positions and configuration (src/main.cpp lines 64 to 92) -/

/-- The Position struct of int64_t coordinates. -/
structure Position where
  x : Int
  y : Int
  z : Int
deriving DecidableEq, Repr

/-- update_x_y_positions from src/main.cpp: the four stacking slots, correct only in x,y. -/
def update_x_y_positions (x1 x2 y1 y2 : Int) : List Position :=
  [ ⟨x1, y1, -1000⟩, ⟨x2, y1, -1000⟩, ⟨x1, y2, -1000⟩, ⟨x2, y2, -1000⟩ ]

/-- GripperPositionParameters with its member initializers. -/
structure GripperPositionParameters where
  x_y_positions : List Position := update_x_y_positions 250 150 300 200
  wait_pos : Position := ⟨100, 100, 100⟩
  box_pickup_pos : Position := ⟨100, 100, 200⟩
  box_height : Int := 30
  floor_pos : Int := 300
  boxes_per_palette : Int := 48
deriving DecidableEq, Repr

/-- The global constinit positions object (default constructed). -/
def positions : GripperPositionParameters := {}

/-- The body of next_stack_box_pos factored over the configuration it reads: take the slot
at index nr_boxes mod 4 and overwrite its z with floor_pos + nr_boxes div 4 box heights.
C++ array indexing [i] carries no default, but the index is always within the four slots
for the nonnegative nr_boxes the program produces. -/
def next_stack_box_pos_in (p : GripperPositionParameters) (nr_boxes : Int) : Position :=
  let pos := p.x_y_positions.getD (nr_boxes % 4).toNat ⟨0, 0, 0⟩
  { pos with z := p.floor_pos + nr_boxes / 4 * p.box_height }

/-- next_stack_box_pos from src/main.cpp, reading the global positions object. -/
def next_stack_box_pos (nr_boxes : Int) : Position :=
  next_stack_box_pos_in positions nr_boxes

/-! ### The task state machines (src/main.cpp lines 94 to 270)

Each task is a SideEffectCoroutine: one call of operator() resumes the body
up to the next co_yield (or to completion).  A coroutine is embedded as an
explicit program counter recording the suspension point it is parked at,
plus a resume function executing the straight-line code between suspension
points.  EXEC and EXEC_WHILE step the child coroutine once and then yield
the parent, so a parent program counter inside such a block carries the
child program counter (with none meaning the child already completed and
the parent yielded once more before leaving the block). -/

/-- The published state enum of struct Inlet. -/
inductive InletSt | Undefined | NoBox | MoveBox | BoxReady
deriving DecidableEq, Repr

/-- The published state enum of struct Mag. -/
inductive MagSt | Undefined | Ready | Reloading | Empty
deriving DecidableEq, Repr

/-- The published state enum of struct Arm (Homeing spelled as in the source). -/
inductive ArmSt | Undefined | Homeing | InHomePos | ToWaitPos | Waiting | TakeBox | TransportBox | ReleaseBox
deriving DecidableEq, Repr

/-- The mutable globals the tasks share: the settings gate, the three published state
enums, the three axis motors, the gripper piston and the nr_boxes counter. -/
structure Sys where
  settings : SettingsState
  inletState : InletSt
  magState : MagSt
  armState : ArmSt
  x_axis : Motor
  y_axis : Motor
  z_axis : Motor
  gripper : Piston
  nr_boxes : Int
deriving DecidableEq, Repr

/-! #### Arm::go_to (src/main.cpp lines 181 to 191) -/

/-- Suspension points of Arm::go_to: the three WAIT_WHILE loops (z to initial_z, then x
and y, then z to the target). -/
inductive GotoPC | z1 | xy | z2
deriving DecidableEq, Repr

/-- A go_to child inside an EXEC block: suspended at a GotoPC, or completed (none). -/
abbrev GotoSt := Option GotoPC

/-- Tail of go_to after the x and y wait: command z to the target and wait while it moves. -/
def gotoAfterXY (pos : Position) (s : Sys) : Sys × GotoSt :=
  let s := { s with z_axis := s.z_axis.go_to_pos pos.z }
  if s.z_axis.is_moving then (s, some .z2) else (s, none)

/-- Tail of go_to after the first z wait: command x and y and wait while either moves. -/
def gotoAfterZ1 (pos : Position) (s : Sys) : Sys × GotoSt :=
  let s := { s with x_axis := s.x_axis.go_to_pos pos.x, y_axis := s.y_axis.go_to_pos pos.y }
  if s.x_axis.is_moving || s.y_axis.is_moving then (s, some .xy) else gotoAfterXY pos s

/-- First resume of a go_to coroutine: command z to initial_z and run to the first
suspension point or completion. -/
def gotoStart (initial_z : Int) (pos : Position) (s : Sys) : Sys × GotoSt :=
  let s := { s with z_axis := s.z_axis.go_to_pos initial_z }
  if s.z_axis.is_moving then (s, some .z1) else gotoAfterZ1 pos s

/-- Resume a go_to coroutine suspended at the given point (each WAIT_WHILE re-checks its
condition and yields again while it holds). -/
def gotoResume (pos : Position) (s : Sys) : GotoPC → Sys × GotoSt
  | .z1 => if s.z_axis.is_moving then (s, some .z1) else gotoAfterZ1 pos s
  | .xy => if s.x_axis.is_moving || s.y_axis.is_moving then (s, some .xy) else gotoAfterXY pos s
  | .z2 => if s.z_axis.is_moving then (s, some .z2) else (s, none)

/-! #### Arm::box_stacking_cycle (src/main.cpp lines 193 to 229) -/

/-- Suspension points of Arm::box_stacking_cycle: the four EXEC(go_to ...) blocks (each
holding its child state; the transport block also holds the target Position captured when
the child was created, the value next_stack_box_pos returned at that moment), the
do-while wait for a box, and the two gripper WAIT_WHILE loops. -/
inductive CyclePC
  | toWait1 (g : GotoSt)
  | waiting
  | toPickup (g : GotoSt)
  | retracting
  | transport (target : Position) (g : GotoSt)
  | extending
  | toWait2 (g : GotoSt)
deriving DecidableEq, Repr

/-- A box_stacking_cycle child inside EXEC_WHILE: suspended at a CyclePC, or completed. -/
abbrev CycleSt := Option CyclePC

/-- Code after the first EXEC block: publish Waiting and enter the do-while, which
co_returns at once when the settings are inactive and otherwise yields. -/
def cycleEnterWaiting (s : Sys) : Sys × CycleSt :=
  let s := { s with armState := .Waiting }
  if !s.settings.is_active then (s, none) else (s, some .waiting)

/-- Code after the box wait: publish TakeBox, assert the gripper extended and start the
go_to toward the pickup position. -/
def cycleTakeBox (s : Sys) : Option (Sys × CycleSt) :=
  let s := { s with armState := .TakeBox }
  if s.gripper.is_extended then
    let r := gotoStart 100 positions.box_pickup_pos s
    some (r.1, some (.toPickup r.2))
  else none

/-- Code after the retraction settles: clear Inlet to NoBox (the documented cross-task
write), publish TransportBox and start the go_to toward the next stack slot, whose target
is evaluated from nr_boxes now. -/
def cycleAfterRetracted (s : Sys) : Sys × CycleSt :=
  let s := { s with inletState := .NoBox, armState := .TransportBox }
  let target := next_stack_box_pos s.nr_boxes
  let r := gotoStart 100 target s
  (r.1, some (.transport target r.2))

/-- Code after the pickup go_to completes: retract the gripper and wait while it is not
yet retracted. -/
def cycleRetract (s : Sys) : Sys × CycleSt :=
  let s := { s with gripper := s.gripper.retract }
  if !s.gripper.is_retracted then (s, some .retracting) else cycleAfterRetracted s

/-- Code after the extension settles: count the box, publish ToWaitPos and start the
go_to back to the wait position. -/
def cycleAfterExtended (s : Sys) : Sys × CycleSt :=
  let s := { s with nr_boxes := s.nr_boxes + 1, armState := .ToWaitPos }
  let r := gotoStart 100 positions.wait_pos s
  (r.1, some (.toWait2 r.2))

/-- Code after the transport go_to completes: publish ReleaseBox, extend the gripper and
wait while it is not yet extended. -/
def cycleAfterTransport (s : Sys) : Sys × CycleSt :=
  let s := { s with armState := .ReleaseBox, gripper := s.gripper.extend }
  if !s.gripper.is_extended then (s, some .extending) else cycleAfterExtended s

/-- First resume of box_stacking_cycle: the entry assert (not Undefined, not Homeing,
gripper extended), then publish ToWaitPos and start the go_to to the wait position. -/
def cycleStart (s : Sys) : Option (Sys × CycleSt) :=
  if s.armState ≠ .Undefined ∧ s.armState ≠ .Homeing ∧ s.gripper.is_extended then
    let s := { s with armState := .ToWaitPos }
    let r := gotoStart 100 positions.wait_pos s
    some (r.1, some (.toWait1 r.2))
  else none

/-- Resume box_stacking_cycle at a suspension point.  In an EXEC block the child is
stepped once and the cycle yields again; once the child has completed the next resume
leaves the block and runs on to the following suspension point. -/
def cycleResume (s : Sys) : CyclePC → Option (Sys × CycleSt)
  | .toWait1 (some g) =>
      let r := gotoResume positions.wait_pos s g
      some (r.1, some (.toWait1 r.2))
  | .toWait1 none => some (cycleEnterWaiting s)
  | .waiting =>
      if s.inletState ≠ .BoxReady ∨ s.magState ≠ .Ready then
        if !s.settings.is_active then some (s, none) else some (s, some .waiting)
      else cycleTakeBox s
  | .toPickup (some g) =>
      let r := gotoResume positions.box_pickup_pos s g
      some (r.1, some (.toPickup r.2))
  | .toPickup none => some (cycleRetract s)
  | .retracting =>
      if !s.gripper.is_retracted then some (s, some .retracting)
      else some (cycleAfterRetracted s)
  | .transport target (some g) =>
      let r := gotoResume target s g
      some (r.1, some (.transport target r.2))
  | .transport _ none => some (cycleAfterTransport s)
  | .extending =>
      if !s.gripper.is_extended then some (s, some .extending)
      else some (cycleAfterExtended s)
  | .toWait2 (some g) =>
      let r := gotoResume positions.wait_pos s g
      some (r.1, some (.toWait2 r.2))
  | .toWait2 none => some ({ s with armState := .Waiting }, none)

/-! #### Arm::homeing and Arm::run (src/main.cpp lines 231 to 262) -/

/-- First resume of Arm::homeing: assert the Homeing state, then start the EXEC(go_to)
toward the origin. -/
def homeingStart (s : Sys) : Option (Sys × Option GotoSt) :=
  if s.armState = .Homeing then
    let r := gotoStart 0 ⟨0, 0, 0⟩ s
    some (r.1, some r.2)
  else none

/-- Resume Arm::homeing suspended inside its EXEC block with child state g; when the
child has completed, leave the block, publish InHomePos and complete. -/
def homeingResume (s : Sys) : GotoSt → Sys × Option GotoSt
  | some g =>
      let r := gotoResume ⟨0, 0, 0⟩ s g
      (r.1, some r.2)
  | none => ({ s with armState := .InHomePos }, none)

/-- Suspension points of Arm::run: the error wait at the loop top, the EXEC_WHILE of
homeing (holding the homeing child state), the idle YIELD while inactive, and the
EXEC_WHILE of box_stacking_cycle (holding the cycle child state). -/
inductive ArmPC
  | start
  | waitErr
  | homing (h : Option GotoSt)
  | idle
  | cycling (c : CycleSt)
deriving DecidableEq, Repr

/-- Top of the while(true) loop in Arm::run: assert Undefined, wait while an error is
outstanding, then publish Homeing and create and step the homeing child.  WAIT_WHILE
falling through means has_error is false, so the EXEC_WHILE condition holds. -/
def armLoopTop (s : Sys) : Option (Sys × ArmPC) :=
  if s.armState = .Undefined then
    if s.settings.has_error then some (s, .waitErr)
    else
      let s := { s with armState := .Homeing }
      (homeingStart s).map (fun r => (r.1, ArmPC.homing r.2))
  else none

/-- The error exit at the bottom of Arm::run: stop all axes, publish Undefined and fall
through to the top of the while(true) loop within the same resume. -/
def armErrorExit (s : Sys) : Option (Sys × ArmPC) :=
  let s := { s with
    x_axis := s.x_axis.stop, y_axis := s.y_axis.stop, z_axis := s.z_axis.stop,
    armState := .Undefined }
  armLoopTop s

/-- Body of while(is_active): enter EXEC_WHILE(not has_error, box_stacking_cycle) knowing
is_active holds.  With an error outstanding the block is skipped without yielding and
while(is_active) spins forever (the settings cannot change inside one resume): that
divergence is modelled as none, as is a failed assert in cycleStart. -/
def armActiveLoop (s : Sys) : Option (Sys × ArmPC) :=
  if !s.settings.has_error then
    (cycleStart s).map (fun r => (r.1, ArmPC.cycling r.2))
  else none

/-- The box transport region of Arm::run once homeing finished without error: idle-yield
while inactive, otherwise enter the active loop. -/
def armBoxLoop (s : Sys) : Option (Sys × ArmPC) :=
  if !s.settings.is_active then some (s, .idle) else armActiveLoop s

/-- Leaving the homeing EXEC_WHILE block: run while(not has_error) or take the error
exit. -/
def armAfterHomingBlock (s : Sys) : Option (Sys × ArmPC) :=
  if !s.settings.has_error then armBoxLoop s else armErrorExit s

/-- Resume Arm::run at a suspension point.  Each EXEC_WHILE re-checks its condition and
the liveness of its child before stepping it; a completed child makes the resume leave
the block and continue in the surrounding loops up to the next suspension point. -/
def armResume (s : Sys) : ArmPC → Option (Sys × ArmPC)
  | .start => armLoopTop s
  | .waitErr =>
      if s.settings.has_error then some (s, .waitErr)
      else
        let s := { s with armState := .Homeing }
        (homeingStart s).map (fun r => (r.1, ArmPC.homing r.2))
  | .homing h =>
      if s.settings.has_error then armErrorExit s
      else
        match h with
        | none => armAfterHomingBlock s
        | some g =>
            let r := homeingResume s g
            some (r.1, .homing r.2)
  | .idle =>
      if !s.settings.is_active then some (s, .idle) else armActiveLoop s
  | .cycling c =>
      if s.settings.has_error then
        if s.settings.is_active then none else armErrorExit s
      else
        match c with
        | none =>
            if s.settings.is_active then
              (cycleStart s).map (fun r => (r.1, ArmPC.cycling r.2))
            else armBoxLoop s
        | some pc => (cycleResume s pc).map (fun r => (r.1, ArmPC.cycling r.2))

/-! #### Inlet::run (src/main.cpp lines 106 to 117) -/

/-- Suspension points of Inlet::run: the activity wait, the ten conveyor YIELDs (the k-th
yield with loop counter i = k), and the wait for the external clear of BoxReady. -/
inductive InletPC | start | waitActive | moveFor (k : Nat) | waitBoxReady
deriving DecidableEq, Repr

/-- Top of the while(true) loop of Inlet::run: wait while inactive, else publish MoveBox
and yield at the first conveyor tick. -/
def inletLoop (s : Sys) : Sys × InletPC :=
  if !s.settings.is_active then (s, .waitActive)
  else ({ s with inletState := .MoveBox }, .moveFor 0)

/-- Resume Inlet::run at a suspension point (the initial resume asserts the Undefined
state). -/
def inletResume (s : Sys) : InletPC → Option (Sys × InletPC)
  | .start => if s.inletState = .Undefined then some (inletLoop s) else none
  | .waitActive => some (inletLoop s)
  | .moveFor k =>
      if k + 1 < 10 then some (s, .moveFor (k + 1))
      else
        let s := { s with inletState := .BoxReady }
        if s.inletState = .BoxReady then some (s, .waitBoxReady) else some (inletLoop s)
  | .waitBoxReady =>
      if s.inletState = .BoxReady then some (s, .waitBoxReady) else some (inletLoop s)

/-! #### Mag::run (src/main.cpp lines 133 to 145) -/

/-- Suspension points of Mag::run: the wait while the palette is not full, and the five
reload YIELDs (the k-th yield with loop counter i = k). -/
inductive MagPC | start | waitBoxes | reloadFor (k : Nat)
deriving DecidableEq, Repr

/-- Top of the while(true) loop of Mag::run: publish Ready, wait while nr_boxes is below
the palette capacity, else publish Reloading, reset nr_boxes and yield at the first
reload tick. -/
def magLoop (s : Sys) : Sys × MagPC :=
  let s := { s with magState := .Ready }
  if s.nr_boxes < positions.boxes_per_palette then (s, .waitBoxes)
  else ({ s with magState := .Reloading, nr_boxes := 0 }, .reloadFor 0)

/-- Resume Mag::run at a suspension point (the initial resume asserts the Undefined
state). -/
def magResume (s : Sys) : MagPC → Option (Sys × MagPC)
  | .start => if s.magState = .Undefined then some (magLoop s) else none
  | .waitBoxes =>
      if s.nr_boxes < positions.boxes_per_palette then some (s, .waitBoxes)
      else some ({ s with magState := .Reloading, nr_boxes := 0 }, .reloadFor 0)
  | .reloadFor k =>
      if k + 1 < 5 then some (s, .reloadFor (k + 1)) else some (magLoop s)

/-! ### The tick loop (src/main.cpp lines 299 to 317) -/

/-- Arm::update_simulated_parts: advance the three axes and the gripper one step. -/
def updateSimulatedParts (s : Sys) : Sys :=
  { s with
    x_axis := s.x_axis.simulate_tick, y_axis := s.y_axis.simulate_tick,
    z_axis := s.z_axis.simulate_tick, gripper := s.gripper.simulate_tick }

/-- The whole process state: shared globals plus the suspension point of each task. -/
structure Machine where
  sys : Sys
  armPC : ArmPC
  magPC : MagPC
  inletPC : InletPC
deriving DecidableEq, Repr

/-- One iteration of the main loop: advance the simulated parts, then step Arm, then Mag,
then Inlet, in the fixed source order. -/
def tick (m : Machine) : Option Machine :=
  let s := updateSimulatedParts m.sys
  match armResume s m.armPC with
  | none => none
  | some (s, apc) =>
    match magResume s m.magPC with
    | none => none
    | some (s, mpc) =>
      match inletResume s m.inletPC with
      | none => none
      | some (s, ipc) => some ⟨s, apc, mpc, ipc⟩

/-- The state right after the Arm step within the next tick (the point at which the Arm
may have just written NoBox, before Inlet itself is stepped). -/
def armMid (m : Machine) : Option Sys :=
  (armResume (updateSimulatedParts m.sys) m.armPC).map (·.1)

/-- The process state at the first entry of the main loop: settings activated by main,
every published state Undefined, all motors at the origin with speed 17, the gripper
extended and idle, no boxes, every coroutine created but not yet resumed. -/
def initMachine : Machine :=
  { sys :=
      { settings := initSettings.set_active
        inletState := .Undefined, magState := .Undefined, armState := .Undefined
        x_axis := ⟨0, 0, 17⟩, y_axis := ⟨0, 0, 17⟩, z_axis := ⟨0, 0, 17⟩
        gripper := ⟨true, 0⟩, nr_boxes := 0 }
    armPC := .start, magPC := .start, inletPC := .start }

/-- The machine after n ticks of the main loop starting from m (none once any tick
tripped an assert). -/
def traceFrom (m : Machine) : Nat → Option Machine
  | 0 => some m
  | n + 1 => (traceFrom m n).bind tick

/-- The machine after n ticks of the program run. -/
def trace (n : Nat) : Option Machine := traceFrom initMachine n

/-! ### Derived iteration helpers used by the theorems below -/

/-- Iterate SimulatedMotor::simulate_tick n times with the target held fixed. -/
def Motor.iter_tick (m : Motor) : Nat → Motor
  | 0 => m
  | n + 1 => (m.iter_tick n).simulate_tick

/-- Iterate resumes of the Mag coroutine n times from a given suspension. -/
def magRun (n : Nat) (x : Sys × MagPC) : Option (Sys × MagPC) :=
  match n with
  | 0 => some x
  | n + 1 => (magRun n x).bind (fun r => magResume r.1 r.2)

/-- A machine at the start of a box window: the Arm parked in the do-while wait of
box_stacking_cycle with every axis settled at the wait position and the gripper extended,
the settings active and error free, Inlet publishing BoxReady and Mag publishing Ready,
and nb boxes already stacked.  The program run reaches exactly such states (for example
at ticks 16 and 88 of the trace). -/
def windowMachine (nb : Nat) : Machine :=
  { sys :=
      { settings := { active := true, nr_errors := 0, curr_errors := ⟨false, false, false⟩ }
        inletState := .BoxReady, magState := .Ready, armState := .Waiting
        x_axis := ⟨100, 100, 17⟩, y_axis := ⟨100, 100, 17⟩, z_axis := ⟨100, 100, 17⟩
        gripper := ⟨true, 0⟩, nr_boxes := (nb : Int) }
    armPC := .cycling (some .waiting), magPC := .waitBoxes, inletPC := .waitBoxReady }

/-- The observation recorded per tick in the window theorem: the published Arm state, the
published Inlet state and the box counter. -/
def windowObs (m : Machine) : ArmSt × InletSt × Int :=
  (m.sys.armState, m.sys.inletState, m.sys.nr_boxes)

/-- A property of the resulting shared state of a step that may have tripped an assert. -/
def OptHolds {α : Type} (P : Sys → Prop) : Option (Sys × α) → Prop
  | none => True
  | some r => P r.1

/-- The step changed at most the three motor axes. -/
def motorOnlyDiff (s s' : Sys) : Prop :=
  s'.settings = s.settings ∧ s'.inletState = s.inletState ∧ s'.magState = s.magState ∧
  s'.armState = s.armState ∧ s'.gripper = s.gripper ∧ s'.nr_boxes = s.nr_boxes

/-- The step left Mag's published state alone and either left Inlet's published state
alone or performed the single documented cross-task write of NoBox. -/
def magSameInletOk (s s' : Sys) : Prop :=
  s'.magState = s.magState ∧ (s'.inletState = s.inletState ∨ s'.inletState = InletSt.NoBox)

/-! ## Theorems -/

/-! ### Claims C1, C3, C4: the Settings gate

Settings::reset_error decrements nr_errors but never clears the flag in
curr_errors, so a cleared kind stays reported: a second clear wraps the
size_t counter to 2 to the 64 minus 1, a re-raise after a clear does not
count, and the activity invariant fails in a reachable state. -/

/-- Claim C1: clear(kind) is claimed to leave the kind no longer set and to keep
error_count from ever going below zero.  Evaluating the code: after raise then clear of
EmergencyStop the kind is still set while the count is 0, and one further clear wraps the
size_t count to 2 to the 64 minus 1. -/
theorem settings_reset_error_code_bug :
    ((initSettings.set_error .EmergencyStop).reset_error .EmergencyStop).error_is_set .EmergencyStop = true ∧
    ((initSettings.set_error .EmergencyStop).reset_error .EmergencyStop).curr_error_count = 0 ∧
    (((initSettings.set_error .EmergencyStop).reset_error .EmergencyStop).reset_error
        .EmergencyStop).curr_error_count = 2 ^ 64 - 1 := by
  decide

/-- Claim C3: the invariant active implies error_count = 0 is claimed to hold in every
reachable state.  Evaluating the code on the reachable sequence raise k, clear k,
activate, clear k (all of kind InvalidGripperPos): the resulting state is active with a
nonzero (wrapped) error count, violating the invariant. -/
theorem settings_active_invariant_code_bug :
    ((((initSettings.set_error .InvalidGripperPos).reset_error .InvalidGripperPos).set_active).reset_error
        .InvalidGripperPos).is_active = true ∧
    ((((initSettings.set_error .InvalidGripperPos).reset_error .InvalidGripperPos).set_active).reset_error
        .InvalidGripperPos).curr_error_count ≠ 0 := by
  decide

/-- Claim C4: after a matching clear(k) the next raise(k) is claimed to increase
error_count by exactly 1.  Evaluating the code on raise, clear, raise of
BoxCatchedOnConveyor: the count stays 0 after the re-raise, because clear left the kind
flagged and raise therefore adds nothing. -/
theorem settings_raise_after_clear_code_bug :
    (((initSettings.set_error .BoxCatchedOnConveyor).reset_error .BoxCatchedOnConveyor).set_error
        .BoxCatchedOnConveyor).curr_error_count = 0 ∧
    (((initSettings.set_error .BoxCatchedOnConveyor).reset_error .BoxCatchedOnConveyor).set_error
        .BoxCatchedOnConveyor).error_is_set .BoxCatchedOnConveyor = true := by
  decide

/-! ### Claim C2: arena deallocation order -/

/-- Claim C2 counterexample: with an outer block at index 0 (2 units) and a live inner
block at index 2 (cursor 4), deallocating the outer block first passes both asserts and
silently resets the cursor to 0, instead of failing as the claim states. -/
theorem arena_out_of_lifo_accepted :
    CoroutineStack.allocate 0 16 = some (0, 2) ∧
    CoroutineStack.allocate 2 16 = some (2, 4) ∧
    CoroutineStack.deallocate 4 0 = some 0 ∧
    CoroutineStack.deallocate 4 0 ≠ none := by
  decide

/-- Claim C2 amended: deallocate(addr) checks only that addr lies strictly below the
cursor and inside the arena; every such address is accepted, resetting the cursor to its
offset (so freeing a non-most-recent live block is not rejected), and every other address
trips an assert. -/
theorem arena_deallocate_characterization (c a : Nat) :
    CoroutineStack.deallocate c a = if a < c ∧ a < coroArenaSize then some a else none := by
  unfold CoroutineStack.deallocate
  by_cases h1 : a < c <;> by_cases h2 : a < coroArenaSize <;> simp [h1, h2]

/-! ### Claim C8: tick budget accounting -/

/-- Claim C8: when the elapsed time reaches or exceeds the period, wait_till_end_of_tick
returns a non-positive budget and resets the baseline to the current time; when it is
below the period, the baseline advances by exactly one period (the boundary the call
sleeps until) and the positive remaining budget period minus elapsed is returned. -/
theorem tick_budget_spec (start period now : Int) :
    (period ≤ now - start →
      (Tick.wait_till_end_of_tick start period now).2 ≤ 0 ∧
      (Tick.wait_till_end_of_tick start period now).1 = now) ∧
    (now - start < period →
      (Tick.wait_till_end_of_tick start period now).1 = start + period ∧
      (Tick.wait_till_end_of_tick start period now).2 = period - (now - start) ∧
      0 < (Tick.wait_till_end_of_tick start period now).2) := by
  simp only [Tick.wait_till_end_of_tick]
  split_ifs with h
  · exact ⟨fun hle => absurd hle (by omega), fun _ => ⟨rfl, rfl, by omega⟩⟩
  · exact ⟨fun _ => ⟨by omega, rfl⟩, fun hlt => absurd hlt h⟩

/-- Witness for claim C8 at a concrete overrun: baseline 0, period 10, now 25. -/
theorem tick_budget_spec_witness :
    (Tick.wait_till_end_of_tick 0 10 25).2 ≤ 0 ∧ (Tick.wait_till_end_of_tick 0 10 25).1 = 25 :=
  (tick_budget_spec 0 10 25).1 (by decide)

/-! ### Claim C9: stack slot geometry -/

/-- Claim C9: for every configuration whose slot list has the four entries S[0..3] and
every box index i at least 0, the computed target has the x and y of slot i mod 4 and
z equal to floor_pos plus i div 4 box heights; and for the shipped configuration the
twelve first targets are the explicit table below. -/
theorem next_stack_box_pos_formula :
    (∀ (p : GripperPositionParameters) (i : Int), 0 ≤ i → p.x_y_positions.length = 4 →
      ∃ h : (i % 4).toNat < p.x_y_positions.length,
        (next_stack_box_pos_in p i).x = (p.x_y_positions.get ⟨(i % 4).toNat, h⟩).x ∧
        (next_stack_box_pos_in p i).y = (p.x_y_positions.get ⟨(i % 4).toNat, h⟩).y ∧
        (next_stack_box_pos_in p i).z = p.floor_pos + i / 4 * p.box_height) ∧
    (List.range 12).map (fun i => next_stack_box_pos i) =
      [⟨250, 300, 300⟩, ⟨150, 300, 300⟩, ⟨250, 200, 300⟩, ⟨150, 200, 300⟩,
       ⟨250, 300, 330⟩, ⟨150, 300, 330⟩, ⟨250, 200, 330⟩, ⟨150, 200, 330⟩,
       ⟨250, 300, 360⟩, ⟨150, 300, 360⟩, ⟨250, 200, 360⟩, ⟨150, 200, 360⟩] := by
  constructor
  · intro p i hi hlen
    have hmod : (i % 4).toNat < p.x_y_positions.length := by
      have h1 : 0 ≤ i % 4 := Int.emod_nonneg i (by omega)
      have h2 : i % 4 < 4 := Int.emod_lt_of_pos i (by omega)
      omega
    refine ⟨hmod, ?_, ?_, rfl⟩
    · unfold next_stack_box_pos_in
      rw [List.getD_eq_getElem p.x_y_positions _ hmod]
      rfl
    · unfold next_stack_box_pos_in
      rw [List.getD_eq_getElem p.x_y_positions _ hmod]
      rfl
  · decide

/-- Witness for claim C9 at the shipped configuration and box index 6. -/
theorem next_stack_box_pos_formula_witness :
    ∃ h : ((6 : Int) % 4).toNat < positions.x_y_positions.length,
      (next_stack_box_pos_in positions 6).x = (positions.x_y_positions.get ⟨((6 : Int) % 4).toNat, h⟩).x ∧
      (next_stack_box_pos_in positions 6).y = (positions.x_y_positions.get ⟨((6 : Int) % 4).toNat, h⟩).y ∧
      (next_stack_box_pos_in positions 6).z = positions.floor_pos + 6 / 4 * positions.box_height :=
  next_stack_box_pos_formula.1 positions 6 (by decide) (by decide)

/-! ### Claim C10: motor convergence -/

/-- One simulate_tick keeps the target and the speed and shrinks the distance to the
target by exactly the minimum of that distance and the speed. -/
theorem Motor.simulate_tick_dist (m : Motor) (h : 0 < m.speed) :
    (m.simulate_tick).target_pos = m.target_pos ∧ (m.simulate_tick).speed = m.speed ∧
    ((m.simulate_tick).target_pos - (m.simulate_tick).curr_pos).natAbs
      = (m.target_pos - m.curr_pos).natAbs - min (m.target_pos - m.curr_pos).natAbs m.speed.toNat := by
  refine ⟨rfl, rfl, ?_⟩
  unfold Motor.simulate_tick sign
  dsimp only
  split_ifs <;> omega

/-- One simulate_tick never overshoots: the new position stays in the closed interval
between the old position and the target. -/
theorem Motor.simulate_tick_between (m : Motor) (h : 0 < m.speed) :
    min m.curr_pos m.target_pos ≤ (m.simulate_tick).curr_pos ∧
    (m.simulate_tick).curr_pos ≤ max m.curr_pos m.target_pos := by
  unfold Motor.simulate_tick sign
  dsimp only
  split_ifs <;> constructor <;> omega

/-- Iterating simulate_tick n times leaves target and speed unchanged and shrinks the
distance to the target by n speeds, truncated at zero. -/
theorem Motor.iter_tick_dist (m : Motor) (h : 0 < m.speed) (n : Nat) :
    (m.iter_tick n).target_pos = m.target_pos ∧ (m.iter_tick n).speed = m.speed ∧
    ((m.iter_tick n).target_pos - (m.iter_tick n).curr_pos).natAbs
      = (m.target_pos - m.curr_pos).natAbs - n * m.speed.toNat := by
  induction n with
  | zero =>
    refine ⟨rfl, rfl, ?_⟩
    show ((m : Motor).target_pos - m.curr_pos).natAbs = _
    omega
  | succ n ih =>
    obtain ⟨ht, hs, hd⟩ := ih
    obtain ⟨ht', hs', hd'⟩ := Motor.simulate_tick_dist (m.iter_tick n) (hs ▸ h)
    refine ⟨by rw [Motor.iter_tick, ht', ht], by rw [Motor.iter_tick, hs', hs], ?_⟩
    show ((m.iter_tick n).simulate_tick.target_pos - (m.iter_tick n).simulate_tick.curr_pos).natAbs = _
    rw [hd', hs, hd]
    have hexp : (n + 1) * m.speed.toNat = n * m.speed.toNat + m.speed.toNat := by ring
    rw [Nat.min_def]
    split_ifs <;> omega

/-- Claim C10: every simulate_tick moves curr_pos toward target_pos by exactly the
minimum of the remaining distance and the speed and never overshoots; with the target
held fixed, after exactly the ceiling of distance over speed ticks the position equals
the target and is_moving is false, and at every earlier tick count is_moving is still
true, so each WAIT_WHILE(is_moving()) in the Arm movement routines ends after finitely
many ticks. -/
theorem motor_convergence (m : Motor) (h : 0 < m.speed) :
    ((m.simulate_tick.target_pos - m.simulate_tick.curr_pos).natAbs
       = (m.target_pos - m.curr_pos).natAbs
         - min (m.target_pos - m.curr_pos).natAbs m.speed.toNat) ∧
    (min m.curr_pos m.target_pos ≤ m.simulate_tick.curr_pos ∧
       m.simulate_tick.curr_pos ≤ max m.curr_pos m.target_pos) ∧
    ((m.iter_tick (((m.target_pos - m.curr_pos).natAbs + m.speed.toNat - 1) / m.speed.toNat)).curr_pos
        = m.target_pos ∧
     (m.iter_tick (((m.target_pos - m.curr_pos).natAbs + m.speed.toNat - 1) / m.speed.toNat)).is_moving
        = false) ∧
    (∀ k, k < ((m.target_pos - m.curr_pos).natAbs + m.speed.toNat - 1) / m.speed.toNat →
       (m.iter_tick k).is_moving = true) := by
  have hs : 0 < m.speed.toNat := by omega
  refine ⟨(Motor.simulate_tick_dist m h).2.2, Motor.simulate_tick_between m h, ?_, ?_⟩
  · obtain ⟨ht, hsp, hdist⟩ := Motor.iter_tick_dist m h
      (((m.target_pos - m.curr_pos).natAbs + m.speed.toNat - 1) / m.speed.toNat)
    have h1 := Nat.mod_add_div ((m.target_pos - m.curr_pos).natAbs + m.speed.toNat - 1) m.speed.toNat
    have h2 := Nat.mod_lt ((m.target_pos - m.curr_pos).natAbs + m.speed.toNat - 1) hs
    have h3 : (((m.target_pos - m.curr_pos).natAbs + m.speed.toNat - 1) / m.speed.toNat) * m.speed.toNat
        = m.speed.toNat * (((m.target_pos - m.curr_pos).natAbs + m.speed.toNat - 1) / m.speed.toNat) :=
      Nat.mul_comm _ _
    have hzero : (((m.iter_tick (((m.target_pos - m.curr_pos).natAbs + m.speed.toNat - 1) / m.speed.toNat)).target_pos
        - (m.iter_tick (((m.target_pos - m.curr_pos).natAbs + m.speed.toNat - 1) / m.speed.toNat)).curr_pos).natAbs) = 0 := by
      rw [hdist]
      omega
    refine ⟨by omega, ?_⟩
    simp only [Motor.is_moving, bne_eq_false_iff_eq]
    omega
  · intro k hk
    obtain ⟨ht, hsp, hdist⟩ := Motor.iter_tick_dist m h k
    have hlow : k.succ * m.speed.toNat ≤ (m.target_pos - m.curr_pos).natAbs + m.speed.toNat - 1 :=
      (Nat.le_div_iff_mul_le hs).mp hk
    rw [Nat.succ_mul] at hlow
    have hpos : ((m.iter_tick k).target_pos - (m.iter_tick k).curr_pos).natAbs ≠ 0 := by
      rw [hdist]
      omega
    simp only [Motor.is_moving, bne_iff_ne, ne_eq]
    omega

/-- Witness for claim C10 on the motor at 0 commanded to 40 with the shipped speed 17:
the arm arrives after exactly ceil(40 / 17) = 3 ticks and is still moving after 2. -/
theorem motor_convergence_witness :
    ((Motor.iter_tick ⟨40, 0, 17⟩ 3).curr_pos = 40 ∧ (Motor.iter_tick ⟨40, 0, 17⟩ 3).is_moving = false) ∧
    (Motor.iter_tick ⟨40, 0, 17⟩ 2).is_moving = true :=
  ⟨(motor_convergence ⟨40, 0, 17⟩ (by decide)).2.2.1,
   (motor_convergence ⟨40, 0, 17⟩ (by decide)).2.2.2 2 (by decide)⟩

/-! ### Claim C7: the Magazine reload protocol -/

/-- The palette capacity read by Mag::run from the global configuration. -/
theorem boxes_per_palette_val : positions.boxes_per_palette = 48 := rfl

/-- Claim C7: from Undefined the Magazine publishes Ready; while nr_boxes is below the
capacity a step of the suspended wait changes nothing; on the step observing nr_boxes at
capacity (from Ready) it publishes Reloading and resets nr_boxes to 0, stays in Reloading
for the four following steps (the fixed five-tick reload), and on the sixth step
publishes Ready again, with no other published value in between. -/
theorem magazine_reload_protocol (s : Sys) :
    (s.magState = .Undefined → s.nr_boxes < positions.boxes_per_palette →
      magResume s .start = some ({ s with magState := .Ready }, .waitBoxes)) ∧
    (s.nr_boxes < positions.boxes_per_palette →
      magResume s .waitBoxes = some (s, .waitBoxes)) ∧
    (s.magState = .Ready → positions.boxes_per_palette ≤ s.nr_boxes →
      magRun 1 (s, .waitBoxes) = some ({ s with magState := .Reloading, nr_boxes := 0 }, .reloadFor 0) ∧
      magRun 2 (s, .waitBoxes) = some ({ s with magState := .Reloading, nr_boxes := 0 }, .reloadFor 1) ∧
      magRun 3 (s, .waitBoxes) = some ({ s with magState := .Reloading, nr_boxes := 0 }, .reloadFor 2) ∧
      magRun 4 (s, .waitBoxes) = some ({ s with magState := .Reloading, nr_boxes := 0 }, .reloadFor 3) ∧
      magRun 5 (s, .waitBoxes) = some ({ s with magState := .Reloading, nr_boxes := 0 }, .reloadFor 4) ∧
      magRun 6 (s, .waitBoxes) = some ({ s with magState := .Ready, nr_boxes := 0 }, .waitBoxes)) := by
  refine ⟨fun h1 h2 => ?_, fun h2 => ?_, fun hr h => ?_⟩
  · simp only [magResume, magLoop, h1, if_pos]
    rw [if_pos h2]
  · simp only [magResume]
    rw [if_pos h2]
  · have hn' : ¬ s.nr_boxes < positions.boxes_per_palette := not_lt.mpr h
    have q1 : magRun 1 (s, .waitBoxes)
        = some ({ s with magState := .Reloading, nr_boxes := 0 }, .reloadFor 0) := by
      show magResume s .waitBoxes = _
      simp only [magResume]
      rw [if_neg hn']
    have q2 : magRun 2 (s, .waitBoxes)
        = some ({ s with magState := .Reloading, nr_boxes := 0 }, .reloadFor 1) := by
      show (magRun 1 (s, .waitBoxes)).bind (fun r => magResume r.1 r.2) = _
      rw [q1]
      rfl
    have q3 : magRun 3 (s, .waitBoxes)
        = some ({ s with magState := .Reloading, nr_boxes := 0 }, .reloadFor 2) := by
      show (magRun 2 (s, .waitBoxes)).bind (fun r => magResume r.1 r.2) = _
      rw [q2]
      rfl
    have q4 : magRun 4 (s, .waitBoxes)
        = some ({ s with magState := .Reloading, nr_boxes := 0 }, .reloadFor 3) := by
      show (magRun 3 (s, .waitBoxes)).bind (fun r => magResume r.1 r.2) = _
      rw [q3]
      rfl
    have q5 : magRun 5 (s, .waitBoxes)
        = some ({ s with magState := .Reloading, nr_boxes := 0 }, .reloadFor 4) := by
      show (magRun 4 (s, .waitBoxes)).bind (fun r => magResume r.1 r.2) = _
      rw [q4]
      rfl
    have q6 : magRun 6 (s, .waitBoxes)
        = some ({ s with magState := .Ready, nr_boxes := 0 }, .waitBoxes) := by
      show (magRun 5 (s, .waitBoxes)).bind (fun r => magResume r.1 r.2) = _
      rw [q5]
      rfl
    exact ⟨q1, q2, q3, q4, q5, q6⟩

/-- Witness for claim C7 at a concrete full palette: a Ready magazine observing 48 boxes
reloads and resets the counter on the next step. -/
theorem magazine_reload_protocol_witness :
    magRun 1
        ({ settings := { active := true, nr_errors := 0, curr_errors := ⟨false, false, false⟩ },
           inletState := .BoxReady, magState := .Ready, armState := .Waiting,
           x_axis := ⟨100, 100, 17⟩, y_axis := ⟨100, 100, 17⟩, z_axis := ⟨100, 100, 17⟩,
           gripper := ⟨true, 0⟩, nr_boxes := 48 }, .waitBoxes)
      = some
        ({ settings := { active := true, nr_errors := 0, curr_errors := ⟨false, false, false⟩ },
           inletState := .BoxReady, magState := .Reloading, armState := .Waiting,
           x_axis := ⟨100, 100, 17⟩, y_axis := ⟨100, 100, 17⟩, z_axis := ⟨100, 100, 17⟩,
           gripper := ⟨true, 0⟩, nr_boxes := 0 }, .reloadFor 0) :=
  ((magazine_reload_protocol _).2.2 rfl (by decide)).1

/-! ### Claim C6: single-writer discipline per step -/

/-- Re-tagging the program counter of a step result preserves any property of the
resulting shared state. -/
theorem OptHolds_map {α β : Type} (P : Sys → Prop) (f : α → β) (o : Option (Sys × α))
    (h : OptHolds P o) : OptHolds P (o.map (fun r => (r.1, f r.2))) := by
  cases o with
  | none => trivial
  | some r => exact h

/-- go_to touches only the motor axes (tail after the x and y wait). -/
theorem gotoAfterXY_frame (pos : Position) (s : Sys) : motorOnlyDiff s (gotoAfterXY pos s).1 := by
  unfold gotoAfterXY
  try dsimp only
  split <;> exact ⟨rfl, rfl, rfl, rfl, rfl, rfl⟩

/-- go_to touches only the motor axes (tail after the first z wait). -/
theorem gotoAfterZ1_frame (pos : Position) (s : Sys) : motorOnlyDiff s (gotoAfterZ1 pos s).1 := by
  unfold gotoAfterZ1
  try dsimp only
  split
  · exact ⟨rfl, rfl, rfl, rfl, rfl, rfl⟩
  · have h9 := gotoAfterXY_frame pos
      { s with x_axis := s.x_axis.go_to_pos pos.x, y_axis := s.y_axis.go_to_pos pos.y }
    exact ⟨h9.1, h9.2.1, h9.2.2.1, h9.2.2.2.1, h9.2.2.2.2.1, h9.2.2.2.2.2⟩

/-- go_to touches only the motor axes (first resume). -/
theorem gotoStart_frame (z : Int) (pos : Position) (s : Sys) : motorOnlyDiff s (gotoStart z pos s).1 := by
  unfold gotoStart
  try dsimp only
  split
  · exact ⟨rfl, rfl, rfl, rfl, rfl, rfl⟩
  · have h9 := gotoAfterZ1_frame pos { s with z_axis := s.z_axis.go_to_pos z }
    exact ⟨h9.1, h9.2.1, h9.2.2.1, h9.2.2.2.1, h9.2.2.2.2.1, h9.2.2.2.2.2⟩

/-- go_to touches only the motor axes (later resumes). -/
theorem gotoResume_frame (pos : Position) (s : Sys) (g : GotoPC) : motorOnlyDiff s (gotoResume pos s g).1 := by
  cases g <;> unfold gotoResume <;> dsimp only
  · split
    · exact ⟨rfl, rfl, rfl, rfl, rfl, rfl⟩
    · exact gotoAfterZ1_frame pos s
  · split
    · exact ⟨rfl, rfl, rfl, rfl, rfl, rfl⟩
    · exact gotoAfterXY_frame pos s
  · split <;> exact ⟨rfl, rfl, rfl, rfl, rfl, rfl⟩

/-- A step of the box_stacking_cycle coroutine leaves Mag's published state alone and
writes Inlet's published state only to NoBox (first resume). -/
theorem cycleStart_frame (s : Sys) : OptHolds (magSameInletOk s) (cycleStart s) := by
  unfold cycleStart
  try dsimp only
  split
  · exact ⟨(gotoStart_frame 100 positions.wait_pos _).2.2.1,
      Or.inl (gotoStart_frame 100 positions.wait_pos _).2.1⟩
  · trivial

/-- The cycle code entering the Waiting state preserves Mag's and Inlet's state. -/
theorem cycleEnterWaiting_frame (s : Sys) : magSameInletOk s (cycleEnterWaiting s).1 := by
  unfold cycleEnterWaiting
  try dsimp only
  split <;> exact ⟨rfl, Or.inl rfl⟩

/-- The cycle code entering TakeBox preserves Mag's and Inlet's state. -/
theorem cycleTakeBox_frame (s : Sys) : OptHolds (magSameInletOk s) (cycleTakeBox s) := by
  unfold cycleTakeBox
  try dsimp only
  split
  · exact ⟨(gotoStart_frame 100 positions.box_pickup_pos _).2.2.1,
      Or.inl (gotoStart_frame 100 positions.box_pickup_pos _).2.1⟩
  · trivial

/-- The cycle code after the retraction settles performs exactly the documented NoBox
write and leaves Mag's state alone. -/
theorem cycleAfterRetracted_frame (s : Sys) : magSameInletOk s (cycleAfterRetracted s).1 := by
  unfold cycleAfterRetracted
  try dsimp only
  exact ⟨(gotoStart_frame _ _ _).2.2.1, Or.inr (gotoStart_frame _ _ _).2.1⟩

/-- The cycle code starting the retraction leaves Mag's state alone and writes Inlet only
to NoBox. -/
theorem cycleRetract_frame (s : Sys) : magSameInletOk s (cycleRetract s).1 := by
  unfold cycleRetract
  try dsimp only
  split
  · exact ⟨rfl, Or.inl rfl⟩
  · exact cycleAfterRetracted_frame _

/-- The cycle code counting the stacked box preserves Mag's and Inlet's state. -/
theorem cycleAfterExtended_frame (s : Sys) : magSameInletOk s (cycleAfterExtended s).1 := by
  unfold cycleAfterExtended
  try dsimp only
  exact ⟨(gotoStart_frame _ _ _).2.2.1, Or.inl (gotoStart_frame _ _ _).2.1⟩

/-- The cycle code starting the release preserves Mag's and Inlet's state. -/
theorem cycleAfterTransport_frame (s : Sys) : magSameInletOk s (cycleAfterTransport s).1 := by
  unfold cycleAfterTransport
  try dsimp only
  split
  · exact ⟨rfl, Or.inl rfl⟩
  · exact cycleAfterExtended_frame _

/-- A resume of the box_stacking_cycle coroutine leaves Mag's published state alone and
writes Inlet's published state only to NoBox. -/
theorem cycleResume_frame (s : Sys) (pc : CyclePC) : OptHolds (magSameInletOk s) (cycleResume s pc) := by
  cases pc with
  | toWait1 g =>
    cases g with
    | some g =>
      exact ⟨(gotoResume_frame positions.wait_pos s g).2.2.1,
        Or.inl (gotoResume_frame positions.wait_pos s g).2.1⟩
    | none => exact cycleEnterWaiting_frame s
  | waiting =>
    simp only [cycleResume]
    try dsimp only
    split
    · split <;> exact ⟨rfl, Or.inl rfl⟩
    · exact cycleTakeBox_frame s
  | toPickup g =>
    cases g with
    | some g =>
      exact ⟨(gotoResume_frame positions.box_pickup_pos s g).2.2.1,
        Or.inl (gotoResume_frame positions.box_pickup_pos s g).2.1⟩
    | none => exact cycleRetract_frame s
  | retracting =>
    simp only [cycleResume]
    try dsimp only
    split
    · exact ⟨rfl, Or.inl rfl⟩
    · exact cycleAfterRetracted_frame s
  | transport target g =>
    cases g with
    | some g =>
      exact ⟨(gotoResume_frame target s g).2.2.1, Or.inl (gotoResume_frame target s g).2.1⟩
    | none => exact cycleAfterTransport_frame s
  | extending =>
    simp only [cycleResume]
    try dsimp only
    split
    · exact ⟨rfl, Or.inl rfl⟩
    · exact cycleAfterExtended_frame s
  | toWait2 g =>
    cases g with
    | some g =>
      exact ⟨(gotoResume_frame positions.wait_pos s g).2.2.1,
        Or.inl (gotoResume_frame positions.wait_pos s g).2.1⟩
    | none => exact ⟨rfl, Or.inl rfl⟩

/-- A first resume of the homeing coroutine leaves Mag's and Inlet's state alone. -/
theorem homeingStart_frame (s : Sys) : OptHolds (magSameInletOk s) (homeingStart s) := by
  unfold homeingStart
  try dsimp only
  split
  · exact ⟨(gotoStart_frame 0 ⟨0, 0, 0⟩ s).2.2.1, Or.inl (gotoStart_frame 0 ⟨0, 0, 0⟩ s).2.1⟩
  · trivial

/-- A later resume of the homeing coroutine leaves Mag's and Inlet's state alone. -/
theorem homeingResume_frame (s : Sys) (g : GotoSt) : magSameInletOk s (homeingResume s g).1 := by
  cases g with
  | some g => exact ⟨(gotoResume_frame ⟨0, 0, 0⟩ s g).2.2.1, Or.inl (gotoResume_frame ⟨0, 0, 0⟩ s g).2.1⟩
  | none => exact ⟨rfl, Or.inl rfl⟩

/-- The loop-top code of Arm::run leaves Mag's published state alone and writes Inlet
only to NoBox. -/
theorem armLoopTop_frame (s : Sys) : OptHolds (magSameInletOk s) (armLoopTop s) := by
  unfold armLoopTop
  try dsimp only
  split
  · split
    · exact ⟨rfl, Or.inl rfl⟩
    · exact OptHolds_map _ _ _ (homeingStart_frame { s with armState := .Homeing })
  · trivial

/-- The error exit of Arm::run leaves Mag's published state alone and writes Inlet only
to NoBox. -/
theorem armErrorExit_frame (s : Sys) : OptHolds (magSameInletOk s) (armErrorExit s) := by
  unfold armErrorExit
  try dsimp only
  exact armLoopTop_frame _

/-- The active-loop entry of Arm::run leaves Mag's published state alone and writes Inlet
only to NoBox. -/
theorem armActiveLoop_frame (s : Sys) : OptHolds (magSameInletOk s) (armActiveLoop s) := by
  unfold armActiveLoop
  try dsimp only
  split
  · exact OptHolds_map _ _ _ (cycleStart_frame s)
  · trivial

/-- The box-loop entry of Arm::run leaves Mag's published state alone and writes Inlet
only to NoBox. -/
theorem armBoxLoop_frame (s : Sys) : OptHolds (magSameInletOk s) (armBoxLoop s) := by
  unfold armBoxLoop
  try dsimp only
  split
  · exact ⟨rfl, Or.inl rfl⟩
  · exact armActiveLoop_frame s

/-- The code leaving the homeing block of Arm::run leaves Mag's published state alone and
writes Inlet only to NoBox. -/
theorem armAfterHomingBlock_frame (s : Sys) : OptHolds (magSameInletOk s) (armAfterHomingBlock s) := by
  unfold armAfterHomingBlock
  try dsimp only
  split
  · exact armBoxLoop_frame s
  · exact armErrorExit_frame s

/-- A step of the Arm coroutine leaves Mag's published state alone and writes Inlet's
published state only to NoBox. -/
theorem armResume_frame (s : Sys) (pc : ArmPC) : OptHolds (magSameInletOk s) (armResume s pc) := by
  cases pc with
  | start => exact armLoopTop_frame s
  | waitErr =>
    simp only [armResume]
    try dsimp only
    split
    · exact ⟨rfl, Or.inl rfl⟩
    · exact OptHolds_map _ _ _ (homeingStart_frame { s with armState := .Homeing })
  | homing h =>
    simp only [armResume]
    try dsimp only
    split
    · exact armErrorExit_frame s
    · cases h with
      | none => exact armAfterHomingBlock_frame s
      | some g => exact homeingResume_frame s g
  | idle =>
    simp only [armResume]
    try dsimp only
    split
    · exact ⟨rfl, Or.inl rfl⟩
    · exact armActiveLoop_frame s
  | cycling c =>
    simp only [armResume]
    try dsimp only
    split
    · split
      · trivial
      · exact armErrorExit_frame s
    · cases c with
      | none =>
        by_cases ha : s.settings.is_active = true
        · rw [if_pos ha]
          exact OptHolds_map _ _ _ (cycleStart_frame s)
        · rw [if_neg ha]
          exact armBoxLoop_frame s
      | some pc => exact OptHolds_map _ _ _ (cycleResume_frame s pc)

/-- A step of the Mag coroutine writes neither Arm's nor Inlet's published state
(loop-top code). -/
theorem magLoop_frame (s : Sys) : ((magLoop s).1).armState = s.armState ∧ ((magLoop s).1).inletState = s.inletState := by
  unfold magLoop
  try dsimp only
  split <;> exact ⟨rfl, rfl⟩

/-- A step of the Mag coroutine writes neither Arm's nor Inlet's published state. -/
theorem magResume_frame (s : Sys) (pc : MagPC) :
    OptHolds (fun s' => s'.armState = s.armState ∧ s'.inletState = s.inletState) (magResume s pc) := by
  cases pc with
  | start =>
    simp only [magResume]
    try dsimp only
    split
    · exact magLoop_frame s
    · trivial
  | waitBoxes =>
    simp only [magResume]
    try dsimp only
    split <;> exact ⟨rfl, rfl⟩
  | reloadFor k =>
    simp only [magResume]
    try dsimp only
    split
    · exact ⟨rfl, rfl⟩
    · exact magLoop_frame s

/-- A step of the Inlet coroutine writes neither Arm's nor Mag's published state
(loop-top code). -/
theorem inletLoop_frame (s : Sys) : ((inletLoop s).1).armState = s.armState ∧ ((inletLoop s).1).magState = s.magState := by
  unfold inletLoop
  try dsimp only
  split <;> exact ⟨rfl, rfl⟩

/-- A step of the Inlet coroutine writes neither Arm's nor Mag's published state. -/
theorem inletResume_frame (s : Sys) (pc : InletPC) :
    OptHolds (fun s' => s'.armState = s.armState ∧ s'.magState = s.magState) (inletResume s pc) := by
  cases pc with
  | start =>
    simp only [inletResume]
    try dsimp only
    split
    · exact inletLoop_frame s
    · trivial
  | waitActive => exact inletLoop_frame s
  | moveFor k =>
    simp only [inletResume]
    try dsimp only
    split
    · exact ⟨rfl, rfl⟩
    · split
      · exact ⟨rfl, rfl⟩
      · exact inletLoop_frame _
  | waitBoxReady =>
    simp only [inletResume]
    try dsimp only
    split
    · exact ⟨rfl, rfl⟩
    · exact inletLoop_frame s

/-- Claim C6: each published state enum has a single writer per step: an Inlet step never
writes Arm's or Mag's state, a Mag step never writes Arm's or Inlet's state, and an Arm
step never writes Mag's state and writes Inlet's state only by setting it to NoBox. -/
theorem single_writer_per_step :
    (∀ (s : Sys) (pc : InletPC) (s' : Sys) (pc' : InletPC), inletResume s pc = some (s', pc') →
      s'.armState = s.armState ∧ s'.magState = s.magState) ∧
    (∀ (s : Sys) (pc : MagPC) (s' : Sys) (pc' : MagPC), magResume s pc = some (s', pc') →
      s'.armState = s.armState ∧ s'.inletState = s.inletState) ∧
    (∀ (s : Sys) (pc : ArmPC) (s' : Sys) (pc' : ArmPC), armResume s pc = some (s', pc') →
      s'.magState = s.magState ∧ (s'.inletState = s.inletState ∨ s'.inletState = InletSt.NoBox)) := by
  refine ⟨fun s pc s' pc' h => ?_, fun s pc s' pc' h => ?_, fun s pc s' pc' h => ?_⟩
  · have hf := inletResume_frame s pc
    rw [h] at hf
    exact hf
  · have hf := magResume_frame s pc
    rw [h] at hf
    exact hf
  · have hf := armResume_frame s pc
    rw [h] at hf
    exact hf

/-- Witness for claim C6: the first Inlet step of the program run moves from Undefined to
MoveBox and indeed leaves the Arm and Mag published states untouched. -/
theorem single_writer_per_step_witness :
    ({ initMachine.sys with inletState := InletSt.MoveBox }).armState = initMachine.sys.armState ∧
    ({ initMachine.sys with inletState := InletSt.MoveBox }).magState = initMachine.sys.magState :=
  single_writer_per_step.1 initMachine.sys .start _ (.moveFor 0) (by decide)

/-! ### Claim C5: the box pickup window -/

/-- Claim C5 counterexample: in the program run the first window with the settings
active, no error, Inlet at BoxReady and Mag at Ready has the Arm entering TakeBox at tick
17 (it was Waiting at tick 16); Inlet's state is still BoxReady after the Arm steps of
ticks 17 and 18 and at the tick boundaries 17 and 18, so it is not set to NoBox within
one tick of the TakeBox phase beginning; the write happens only during tick 27. -/
theorem arm_nobox_timing_counterexample :
    (trace 16).map (fun m => m.sys.armState) = some .Waiting ∧
    (trace 17).map (fun m => m.sys.armState) = some .TakeBox ∧
    (trace 17).map (fun m => m.sys.inletState) = some .BoxReady ∧
    (trace 17).map (fun m => m.sys.magState) = some .Ready ∧
    (trace 17).map (fun m => m.sys.settings.is_active) = some true ∧
    (trace 17).map (fun m => m.sys.settings.has_error) = some false ∧
    ((trace 16).bind armMid).map (fun s => s.inletState) = some .BoxReady ∧
    ((trace 17).bind armMid).map (fun s => s.inletState) = some .BoxReady ∧
    (trace 18).map (fun m => m.sys.inletState) = some .BoxReady ∧
    ((trace 26).bind armMid).map (fun s => s.inletState) = some .NoBox := by
  decide

/-- Claim C5 amended: from any window state (Arm waiting at the wait position, gripper
extended, settings active and error free, Inlet at BoxReady, Mag at Ready, any box count
below the palette capacity), the Arm enters TakeBox on the next tick and Inlet's state is
set to NoBox during the tenth tick after that (six ticks of travel to the pickup position
plus three retraction ticks plus the clearing step), not within one tick; Inlet publishes
BoxReady at every boundary in between, republishes MoveBox once cleared, and nr_boxes is
unchanged throughout the pickup; in the program run the first window then completes
exactly one full cycle: nr_boxes rises from 0 to 1 at tick 61 and the Arm is back in
Waiting with the cycle coroutine completed and still exactly one box at tick 86. -/
theorem arm_cycle_window_amended :
    (∀ b : Fin 48,
      (List.range 12).map (fun k => (traceFrom (windowMachine b.val) k).map windowObs) =
        [some (.Waiting, .BoxReady, (b.val : Int)),
         some (.TakeBox, .BoxReady, (b.val : Int)),
         some (.TakeBox, .BoxReady, (b.val : Int)),
         some (.TakeBox, .BoxReady, (b.val : Int)),
         some (.TakeBox, .BoxReady, (b.val : Int)),
         some (.TakeBox, .BoxReady, (b.val : Int)),
         some (.TakeBox, .BoxReady, (b.val : Int)),
         some (.TakeBox, .BoxReady, (b.val : Int)),
         some (.TakeBox, .BoxReady, (b.val : Int)),
         some (.TakeBox, .BoxReady, (b.val : Int)),
         some (.TakeBox, .BoxReady, (b.val : Int)),
         some (.TransportBox, .MoveBox, (b.val : Int))] ∧
      ((traceFrom (windowMachine b.val) 10).bind armMid).map (fun s => s.inletState) = some .NoBox) ∧
    ((trace 60).map (fun m => m.sys.nr_boxes) = some 0 ∧
     (trace 61).map (fun m => m.sys.nr_boxes) = some 1 ∧
     (trace 86).map (fun m => m.sys.armState) = some .Waiting ∧
     (trace 86).map (fun m => m.armPC) = some (.cycling none) ∧
     (trace 86).map (fun m => m.sys.nr_boxes) = some 1 ∧
     (trace 88).map (fun m => m.sys.nr_boxes) = some 1) := by
  set_option maxRecDepth 100000 in decide
